import Mathlib

/-!
Verification of the VibeCheck content-discovery and story-composition
pipeline against its natural-language specification.

The embedding follows the frontend source:
  - `src/frontend/src/services/api.js` (category fetcher registry),
  - `src/frontend/src/components/stories/ContentSelector.jsx`
    (search request / response handling with a request-id counter),
  - the story-card renderer and its helpers (`getSubtitle`,
    `getContentImage`, `bgStyle`, `isLightColor`),
  - the `StoryGenerator` component state (`handleCategoryChange`,
    `updateStyle`, `handleShare`).

JavaScript nullish / falsy behaviour is modelled with `Option String`
(`none` for null / undefined) and explicit truthiness helpers.
-/

namespace VibeCheck

/-! ## JavaScript value helpers -/

/-- Truthiness of a JS string-or-null value: null, undefined and the empty
string are falsy, every other string is truthy. -/
def truthyStr : Option String → Bool
  | none => false
  | some s => !s.isEmpty

/-- JS `a || b` on string-or-null values. -/
def jsOr (a b : Option String) : Option String :=
  if truthyStr a then a else b

/-- JS `a || d` where the fallback is a plain string. -/
def jsOrStr (a : Option String) (d : String) : String :=
  match a with
  | some s => if s.isEmpty then d else s
  | none => d

/-! ## `services/api.js`: the category fetcher registry -/

/-- The five concrete fetch capabilities exported by `api.js`. -/
inductive Fetcher where
  | getMovies
  | getAlbums
  | getGames
  | getBooks
  | getLocations
  deriving Repr, DecidableEq

/-- The `CATEGORY_FETCHERS` object literal from `api.js`. -/
def categoryFetchers : String → Option Fetcher
  | "cinema" => some .getMovies
  | "music" => some .getAlbums
  | "games" => some .getGames
  | "books" => some .getBooks
  | "travel" => some .getLocations
  | _ => none

/-- Function `getContentByCategory` from `api.js`: looks the category up in
`CATEGORY_FETCHERS` and throws `Unknown category: …` when absent. -/
def getContentByCategory (category : String) : Except String Fetcher :=
  match categoryFetchers category with
  | some fetcher => .ok fetcher
  | none => .error ("Unknown category: " ++ category)

/-! ## `ContentSelector.jsx`: search state and request sequencing

The component keeps `items`, `loading`, `error` in React state and a
mutable `reqId` ref.  `fetchContent` increments `reqId`, resets the state
(loading, error cleared, items emptied) and issues the async call; the
`.then` / `.catch` handlers apply the response only when the captured id
still equals `reqId.current`, i.e. only when no newer request was issued
in between. -/

/-- React state of `ContentSelector` plus the `reqId` ref.  Content items
are abstracted by numeric ids, which is all the recency argument needs. -/
structure SelectorState where
  items : List Nat
  loading : Bool
  error : Option String
  reqId : Nat
  deriving Repr, DecidableEq

/-- Initial component state: `items = []`, `loading = true`,
`error = null`, `reqId.current = 0`. -/
def selectorInit : SelectorState :=
  { items := [], loading := true, error := none, reqId := 0 }

/-- Outcome of one `getContentByCategory` call: a resolved response whose
`data` field may be missing (the code reads `res.data || []`), or a
rejection. -/
inductive FetchOutcome where
  | success (data : Option (List Nat))
  | failure
  deriving Repr, DecidableEq

/-- One scheduler event: the synchronous prefix of `fetchContent`
(capture `++reqId.current`, reset state, fire the request), or the arrival
of the response of the request whose captured id is `id`. -/
inductive SEvent where
  | issue
  | complete (id : Nat) (out : FetchOutcome)
  deriving Repr, DecidableEq

/-- Error message set by the `.catch` handler. -/
def fetchErrorMsg : String := "Couldn\x27t load content. Check the server."

/-- Single-step transition of the selector, transcribing `fetchContent`:
issuing resets the state and bumps the counter; a completion is applied
only when its captured id equals the current counter (`id !== reqId.current`
returns early otherwise). -/
def stepEv (s : SelectorState) (e : SEvent) : SelectorState :=
  match e with
  | .issue =>
      { items := [], loading := true, error := none, reqId := s.reqId + 1 }
  | .complete id out =>
      if id = s.reqId then
        match out with
        | .success data =>
            { s with items := data.getD [], loading := false }
        | .failure =>
            { s with items := [], error := some fetchErrorMsg,
                     loading := false }
      else s

/-- Run a whole interleaving of issue / completion events. -/
def runTrace (s : SelectorState) (tr : List SEvent) : SelectorState :=
  tr.foldl stepEv s

/-- Number of `issue` events in a trace. -/
def issueCount : List SEvent → Nat
  | [] => 0
  | .issue :: tr => issueCount tr + 1
  | .complete _ _ :: tr => issueCount tr

theorem runTrace_append (s : SelectorState) (t1 t2 : List SEvent) :
    runTrace s (t1 ++ t2) = runTrace (runTrace s t1) t2 :=
  List.foldl_append _ _ _ _

theorem stepEv_complete_reqId (s : SelectorState) (id : Nat)
    (out : FetchOutcome) : (stepEv s (.complete id out)).reqId = s.reqId := by
  unfold stepEv
  by_cases h : id = s.reqId
  · simp only [h, if_pos rfl]
    cases out <;> rfl
  · simp [h]

theorem runTrace_reqId (s : SelectorState) (tr : List SEvent) :
    (runTrace s tr).reqId = s.reqId + issueCount tr := by
  induction tr generalizing s with
  | nil => simp [runTrace, issueCount]
  | cons e tr ih =>
      cases e with
      | issue =>
          simp only [runTrace, List.foldl_cons, issueCount]
          have := ih (stepEv s .issue)
          simp only [runTrace] at this
          rw [this]
          simp [stepEv]
          omega
      | complete id out =>
          simp only [runTrace, List.foldl_cons, issueCount]
          have := ih (stepEv s (.complete id out))
          simp only [runTrace] at this
          rw [this, stepEv_complete_reqId]

/-- Completions whose id differs from the current counter are no-ops, so a
trace of such completions leaves the state untouched. -/
theorem runTrace_stale (s : SelectorState) (tr : List SEvent)
    (h : ∀ e ∈ tr, ∃ id out, e = SEvent.complete id out ∧ id ≠ s.reqId) :
    runTrace s tr = s := by
  induction tr with
  | nil => rfl
  | cons e tr ih =>
      obtain ⟨id, out, rfl, hid⟩ := h e (List.mem_cons_self e tr)
      have hstep : stepEv s (.complete id out) = s := by
        unfold stepEv; simp [hid]
      simp only [runTrace, List.foldl_cons, hstep]
      exact ih fun e he => h e (List.mem_cons_of_mem _ he)

/-- The selector state after the response of request `n` is applied to the
freshly reset state: items replaced and loading cleared on success, empty
items plus the error message on failure. -/
def appliedState (n : Nat) (out : FetchOutcome) : SelectorState :=
  match out with
  | .success data =>
      { items := data.getD [], loading := false, error := none, reqId := n }
  | .failure =>
      { items := [], loading := false, error := some fetchErrorMsg,
        reqId := n }

theorem stepEv_apply_fresh (n : Nat) (out : FetchOutcome) :
    stepEv { items := [], loading := true, error := none, reqId := n }
        (.complete n out) = appliedState n out := by
  cases out <;> simp [stepEv, appliedState]

/-- C1 (amended): in any interleaving where the `n`-th issue is the last
one (`n = issueCount tr0 + 1`) and every other settled response around the
final request's completion belongs to a different request, the state after
all events reflects exactly the outcome of the highest-sequence request:
its items when it resolved, empty items plus the error message when it
rejected — regardless of what lower-sequence requests returned. -/
theorem selector_recency (tr0 tr1 tr2 : List SEvent) (out : FetchOutcome)
    (hn1 : ∀ e ∈ tr1, ∃ id o, e = SEvent.complete id o ∧
        id ≠ issueCount tr0 + 1)
    (hn2 : ∀ e ∈ tr2, ∃ id o, e = SEvent.complete id o ∧
        id ≠ issueCount tr0 + 1) :
    runTrace selectorInit
        (tr0 ++ .issue :: (tr1 ++ .complete (issueCount tr0 + 1) out :: tr2)) =
      appliedState (issueCount tr0 + 1) out := by
  set n := issueCount tr0 + 1 with hn
  have h0 : (runTrace selectorInit tr0).reqId = issueCount tr0 := by
    rw [runTrace_reqId]; simp [selectorInit]
  rw [runTrace_append]
  set s1 := runTrace selectorInit tr0 with hs1
  show runTrace s1 (.issue :: (tr1 ++ .complete n out :: tr2)) = _
  have hs2 : stepEv s1 .issue =
      { items := [], loading := true, error := none, reqId := n } := by
    unfold stepEv; rw [hn, h0]
  have hsplit : runTrace s1 (.issue :: (tr1 ++ .complete n out :: tr2)) =
      runTrace ({ items := [], loading := true, error := none,
                  reqId := n } : SelectorState)
        (tr1 ++ .complete n out :: tr2) := by
    simp only [runTrace, List.foldl_cons, hs2]
  rw [hsplit]
  set s2 : SelectorState :=
    { items := [], loading := true, error := none, reqId := n } with hs2d
  rw [runTrace_append]
  have hstale1 : runTrace s2 tr1 = s2 :=
    runTrace_stale s2 tr1 (by
      intro e he
      obtain ⟨id, o, rfl, hid⟩ := hn1 e he
      exact ⟨id, o, rfl, hid⟩)
  rw [hstale1]
  have hreq3 : (stepEv s2 (.complete n out)).reqId = n :=
    stepEv_complete_reqId s2 n out
  show runTrace (stepEv s2 (.complete n out)) tr2 = _
  rw [runTrace_stale _ tr2 (by
    intro e he
    obtain ⟨id, o, rfl, hid⟩ := hn2 e he
    exact ⟨id, o, rfl, by rw [hreq3]; exact hid⟩)]
  exact stepEv_apply_fresh n out

/-- Witness for `selector_recency`: two overlapping searches whose
responses arrive in order; the final state holds the second request's
items. -/
theorem selector_recency_witness :
    runTrace selectorInit [SEvent.issue, SEvent.issue,
        SEvent.complete 1 (FetchOutcome.success (some [7])),
        SEvent.complete 2 (FetchOutcome.success (some [9]))] =
      appliedState 2 (FetchOutcome.success (some [9])) := by
  have h := selector_recency [SEvent.issue]
      [SEvent.complete 1 (FetchOutcome.success (some [7]))] []
      (FetchOutcome.success (some [9]))
      (by
        intro e he
        simp only [List.mem_singleton] at he
        exact ⟨1, FetchOutcome.success (some [7]), he, by decide⟩)
      (by intro e he; exact absurd he (List.not_mem_nil e))
  exact h

/-- C1 counterexample: requests 1 and 2 overlap; request 1 succeeds with
items `[7]`, request 2 fails, both settle.  The highest-sequence request
that succeeded is request 1, so the claim predicts displayed items `[7]`;
the code discards request 1's response (its id no longer equals
`reqId.current`) and applies request 2's failure, leaving empty items and
an error. -/
theorem selector_recency_counterexample :
    (runTrace selectorInit [SEvent.issue, SEvent.issue,
        SEvent.complete 1 (FetchOutcome.success (some [7])),
        SEvent.complete 2 FetchOutcome.failure]).items = [] ∧
    (runTrace selectorInit [SEvent.issue, SEvent.issue,
        SEvent.complete 1 (FetchOutcome.success (some [7])),
        SEvent.complete 2 FetchOutcome.failure]).items ≠ [7] ∧
    (runTrace selectorInit [SEvent.issue, SEvent.issue,
        SEvent.complete 1 (FetchOutcome.success (some [7])),
        SEvent.complete 2 FetchOutcome.failure]).error ≠ none := by
  refine ⟨rfl, by decide, by decide⟩

/-! ## Content items

A content item as the renderer sees it: a flat attribute bag whose fields
may be absent (`none` for a missing / null JS property).  Season, episode
and temperature are numeric in the source data (`content.season != null`,
`` `${content.temperature}°` ``); page counts are numbers as well. -/

structure ContentItem where
  id : Nat := 0
  title : Option String := none
  name : Option String := none
  subtitle : Option String := none
  year : Option String := none
  director : Option String := none
  artist : Option String := none
  platform : Option String := none
  author : Option String := none
  city : Option String := none
  country : Option String := none
  poster : Option String := none
  cover : Option String := none
  image : Option String := none
  type : Option String := none
  season : Option Int := none
  episode : Option Int := none
  difficulty : Option String := none
  totalPages : Option Nat := none
  weather : Option String := none
  temperature : Option Int := none
  dominantColor : Option String := none
  deriving Repr, DecidableEq

/-! ## `StoryStyle` and `updateStyle`

`DEFAULT_STYLE` in `StoryGenerator.jsx` fixes six flat fields; `bgColor`
starts as null ("auto").  `updateStyle(key, value)` is the spread
`{ ...prev, [key]: value }`, a shallow single-field replacement. -/

structure StoryStyle where
  font : Option String
  bgColor : Option String
  bgTexture : Option String
  textAlign : Option String
  titleSize : Option String
  cardLayout : Option String
  deriving Repr, DecidableEq

/-- The `DEFAULT_STYLE` literal from `StoryGenerator.jsx`. -/
def defaultStyle : StoryStyle :=
  { font := some "default", bgColor := none, bgTexture := some "none",
    textAlign := some "left", titleSize := some "normal",
    cardLayout := some "default" }

/-- The six field names `updateStyle` can be called with. -/
inductive StyleField where
  | font
  | bgColor
  | bgTexture
  | textAlign
  | titleSize
  | cardLayout
  deriving Repr, DecidableEq

/-- Transcribes `updateStyle(key, value)`, the shallow spread merge. -/
def updateStyle (s : StoryStyle) (f : StyleField) (v : Option String) :
    StoryStyle :=
  match f with
  | .font => { s with font := v }
  | .bgColor => { s with bgColor := v }
  | .bgTexture => { s with bgTexture := v }
  | .textAlign => { s with textAlign := v }
  | .titleSize => { s with titleSize := v }
  | .cardLayout => { s with cardLayout := v }

/-- Read a named field back out of a style. -/
def getStyleField (s : StoryStyle) (f : StyleField) : Option String :=
  match f with
  | .font => s.font
  | .bgColor => s.bgColor
  | .bgTexture => s.bgTexture
  | .textAlign => s.textAlign
  | .titleSize => s.titleSize
  | .cardLayout => s.cardLayout

/-! ## `isLightColor` and the derived text color

`isLightColor(hex)` strips the first `#` (JS `String.replace` with a
string pattern replaces the first occurrence only), parses the three
two-character substrings as base-16 integers and compares the weighted
sum `(r*299 + g*587 + b*114) / 1000` with 160.  Over integers the
comparison is exact, so it is embedded as `… > 160000`.  `parseInt`
parses the longest hex-digit prefix and yields NaN when there is none;
a NaN comparison is false.  (JS `parseInt` also skips leading whitespace
and signs; color strings never contain either, so that is not modelled.) -/

/-- Numeric value of a hex digit (both cases), junk elsewhere. -/
def hexVal (c : Char) : Nat :=
  if '0' ≤ c ∧ c ≤ '9' then c.toNat - 48
  else if 'a' ≤ c ∧ c ≤ 'f' then c.toNat - 87
  else if 'A' ≤ c ∧ c ≤ 'F' then c.toNat - 55
  else 0

def isHexDigitChar (c : Char) : Bool :=
  ('0' ≤ c && c ≤ '9') || ('a' ≤ c && c ≤ 'f') || ('A' ≤ c && c ≤ 'F')

/-- JS `parseInt(s, 16)`: longest hex-digit prefix, `none` for NaN. -/
def parseIntHex (cs : List Char) : Option Nat :=
  let ds := cs.takeWhile isHexDigitChar
  if ds.isEmpty then none
  else some (ds.foldl (fun acc c => acc * 16 + hexVal c) 0)

/-- JS `hex.replace("#", "")`: removes the first `#`. -/
def removeFirstHash : List Char → List Char
  | [] => []
  | c :: rest => if c = '#' then rest else c :: removeFirstHash rest

/-- The final comparison `(r*299 + g*587 + b*114) / 1000 > 160` of
`isLightColor`, false as soon as one channel is NaN. -/
def lumAbove160 : Option Nat → Option Nat → Option Nat → Bool
  | some r, some g, some b => r * 299 + g * 587 + b * 114 > 160000
  | _, _, _ => false

/-- Function `isLightColor` from the story-card module. -/
def isLightColor (hex : String) : Bool :=
  let c := removeFirstHash hex.data
  lumAbove160 (parseIntHex (c.take 2)) (parseIntHex ((c.drop 2).take 2))
    (parseIntHex ((c.drop 4).take 2))

/-- Transcribes `isLight = bgColor && isLightColor(bgColor)` followed by
`textColor = isLight ? "#1d1b22" : "#fff"`. -/
def storyTextColor (bgColor : Option String) : String :=
  if truthyStr bgColor && isLightColor (bgColor.getD "") then "#1d1b22"
  else "#fff"

/-! ## Story-card lookup tables -/

/-- The `CATEGORY_LABELS` table. -/
def categoryLabels : String → Option String
  | "cinema" => some "NOW WATCHING"
  | "music" => some "NOW LISTENING"
  | "games" => some "NOW PLAYING"
  | "books" => some "NOW READING"
  | "travel" => some "NOW EXPLORING"
  | _ => none

/-- The `CATEGORY_GRADIENTS` table. -/
def categoryGradients : String → Option String
  | "cinema" => some "linear-gradient(145deg, #4a0e8f, #7b2ff7, #c471f5)"
  | "music" => some "linear-gradient(145deg, #0f2027, #2c5364, #203a43)"
  | "games" => some "linear-gradient(145deg, #1a1a2e, #16213e, #0f3460)"
  | "books" => some "linear-gradient(145deg, #2d1b69, #6b3fa0, #8e44ad)"
  | "travel" => some "linear-gradient(145deg, #134e5e, #71b280, #2ecc71)"
  | _ => none

/-- The `FONT_FAMILIES` table. -/
def fontFamilies : String → Option String
  | "default" => some "-apple-system, BlinkMacSystemFont, \"Segoe UI\", sans-serif"
  | "serif" => some "\"Georgia\", \"Times New Roman\", serif"
  | "mono" => some "\"SF Mono\", \"Fira Code\", \"Consolas\", monospace"
  | "handwritten" => some "\"Segoe Script\", \"Comic Sans MS\", cursive"
  | "display" => some "\"Impact\", \"Arial Black\", sans-serif"
  | _ => none

/-- The `TITLE_SIZES` table (story-card version). -/
def titleSizes : String → Option String
  | "small" => some "1.05rem"
  | "normal" => some "1.35rem"
  | "large" => some "1.75rem"
  | _ => none

/-- The `TEXTURE_OVERLAYS` table: present keys carry a CSS background image, the
`none` key carries null.  The `noise` SVG data URL is abbreviated to its
distinguishing prefix marker; its exact characters never matter to any
claim, only its truthiness. -/
def textureOverlays : String → Option (Option String)
  | "none" => some none
  | "noise" => some (some "url(data:image/svg+xml noise)")
  | "dots" => some (some "radial-gradient(circle, rgba(255,255,255,0.08) 1px, transparent 1px)")
  | "diagonal" => some (some "repeating-linear-gradient(45deg, transparent, transparent 10px, rgba(255,255,255,0.04) 10px, rgba(255,255,255,0.04) 20px)")
  | "grid" => some (some "linear-gradient(rgba(255,255,255,0.04) 1px, transparent 1px), linear-gradient(90deg, rgba(255,255,255,0.04) 1px, transparent 1px)")
  | "vignette" => some (some "radial-gradient(ellipse at center, transparent 40%, rgba(0,0,0,0.5) 100%)")
  | _ => none

/-- The `TEXTURE_SIZES` table. -/
def textureSizes : String → Option String
  | "dots" => some "16px 16px"
  | "grid" => some "24px 24px"
  | _ => none

/-! ## Category-typed extractors (`getSubtitle`, `getContentImage`) -/

/-- Transcribes `[a, b].filter(Boolean).join(sep)`. -/
def joinTruthy (sep : String) (xs : List (Option String)) : String :=
  String.intercalate sep
    (xs.filterMap fun o => if truthyStr o then o else none)

/-- Function `getSubtitle(category, content)`: per-category switch; returns `""`
when content is null. -/
def getSubtitle (category : String) (content : Option ContentItem) :
    String :=
  match content with
  | none => ""
  | some c =>
      match category with
      | "cinema" => joinTruthy "  ·  " [c.year, c.director]
      | "music" => jsOrStr c.artist ""
      | "games" => jsOrStr c.platform ""
      | "books" => jsOrStr c.author ""
      | "travel" => joinTruthy ", " [c.city, c.country]
      | _ => ""

/-- Function `getContentImage(category, content)`: per-category priority order. -/
def getContentImage (category : String) (content : Option ContentItem) :
    Option String :=
  match content with
  | none => none
  | some c =>
      match category with
      | "cinema" => jsOr c.poster c.image
      | "music" => jsOr c.cover c.image
      | "games" => jsOr c.cover c.image
      | "books" => jsOr c.cover c.image
      | "travel" => c.image
      | _ => c.image

/-! ## The story-card renderer -/

/-- Fully resolved, display-ready representation of the card produced by
one `StoryCard` render: badges, media, typography and colors. -/
structure RenderDescriptor where
  label : String
  episodeBadge : Option (Int × Int)
  difficultyBadge : Option String
  pagesBadge : Option Nat
  weatherBadge : Option (String × Option Int)
  image : Option String
  title : String
  subtitle : Option String
  caption : Option String
  background : Option String
  textColor : String
  fontFamily : Option String
  textAlign : String
  titleSize : Option String
  cardLayout : String
  texture : Option (String × String)
  deriving Repr, DecidableEq

/-- The `bgStyle` memo: explicit style color, else dominant color, else the
per-category gradient (undefined for an unknown category). -/
def resolveBackground (bgColor dominantColor : Option String)
    (category : String) : Option String :=
  if truthyStr bgColor then
    some ("linear-gradient(145deg, " ++ bgColor.getD "" ++ "ff, " ++
      bgColor.getD "" ++ "cc, " ++ bgColor.getD "" ++ "88)")
  else if truthyStr dominantColor then
    some ("linear-gradient(145deg, " ++ dominantColor.getD "" ++ "dd, " ++
      dominantColor.getD "" ++ "88, " ++ dominantColor.getD "" ++ "44)")
  else categoryGradients category

/-- Transcribes `content?.title || content?.name || "Untitled"`. -/
def resolveTitle (content : Option ContentItem) : String :=
  match content with
  | none => "Untitled"
  | some c => jsOrStr (jsOr c.title c.name) "Untitled"

/-- One `StoryCard` render (the `getSubtitle`-based component): transcribes
the JSX into the descriptor, field by field, in source order.  Style
fields fall back to the destructuring defaults; `caption` and `subtitle`
are attached only when truthy, exactly as `{subtitle && …}` /
`{caption && …}` render. -/
def storyCard (category : String) (content : Option ContentItem)
    (dominantColor : Option String) (caption : Option String)
    (customStyle : StoryStyle) : RenderDescriptor :=
  let font := customStyle.font.getD "default"
  let bgColor := customStyle.bgColor
  let bgTexture := customStyle.bgTexture.getD "none"
  let textAlign := customStyle.textAlign.getD "left"
  let titleSize := customStyle.titleSize.getD "normal"
  let cardLayout := customStyle.cardLayout.getD "default"
  let subtitle := getSubtitle category content
  { label := jsOrStr (categoryLabels category) "NOW VIBING"
    episodeBadge :=
      if category = "cinema" ∧ (content.bind (·.type)) = some "tv" ∧
          (content.bind (·.season)).isSome ∧
          (content.bind (·.episode)).isSome then
        some ((content.bind (·.season)).getD 0,
          (content.bind (·.episode)).getD 0)
      else none
    difficultyBadge :=
      if category = "games" ∧ truthyStr (content.bind (·.difficulty)) then
        content.bind (·.difficulty)
      else none
    pagesBadge :=
      if category = "books" ∧ (content.bind (·.totalPages)).getD 0 ≠ 0 then
        content.bind (·.totalPages)
      else none
    weatherBadge :=
      if category = "travel" ∧ truthyStr (content.bind (·.weather)) then
        some ((content.bind (·.weather)).getD "",
          content.bind (·.temperature))
      else none
    image := getContentImage category content
    title := resolveTitle content
    subtitle := if subtitle.isEmpty then none else some subtitle
    caption := if truthyStr caption then caption else none
    background := resolveBackground bgColor dominantColor category
    textColor := storyTextColor bgColor
    fontFamily := fontFamilies font
    textAlign := textAlign
    titleSize := titleSizes titleSize
    cardLayout := cardLayout
    texture :=
      if bgTexture ≠ "none" ∧ truthyStr ((textureOverlays bgTexture).getD none)
      then
        some (((textureOverlays bgTexture).getD none).getD "",
          jsOrStr (textureSizes bgTexture) "cover")
      else none }

/-- The preview rendered by `StoryGenerator`: the selected item supplies
`dominantColor`, and the caption prop is `caption || undefined`. -/
def storyPreview (category : String) (item : ContentItem)
    (style : StoryStyle) (caption : String) : RenderDescriptor :=
  storyCard category (some item) item.dominantColor
    (if caption.isEmpty then none else some caption) style

/-! ## `StoryGenerator` state and operations -/

/-- Possible `shareResult` values: `{ type: "success", data }` or
`{ type: "error", message }`. -/
inductive ShareResult where
  | success
  | error (message : String)
  deriving Repr, DecidableEq

/-- React state of `StoryGenerator`. -/
structure GenState where
  category : String
  selectedContent : Option ContentItem
  caption : String
  sharing : Bool
  shareResult : Option ShareResult
  style : StoryStyle
  deriving Repr, DecidableEq

/-- Initial generator state. -/
def genInit : GenState :=
  { category := "cinema", selectedContent := none, caption := "",
    sharing := false, shareResult := none, style := defaultStyle }

/-- Transcribes `handleCategoryChange(key)`. -/
def handleCategoryChange (s : GenState) (key : String) : GenState :=
  { s with category := key, selectedContent := none, caption := "",
           shareResult := none }

/-- The body handed to `createShare`: category, selected content id, and
the trimmed caption or undefined (`caption.trim() || undefined`). -/
structure ShareRequest where
  category : String
  contentId : Nat
  caption : Option String
  deriving Repr, DecidableEq

/-- Server response to a `createShare` call: resolution, or rejection
carrying `err.response?.data?.message` when the server sent one. -/
inductive ShareOutcome where
  | resolved
  | rejected (serverMessage : Option String)
  deriving Repr, DecidableEq

/-- Transcribes `handleShare` run to completion: with no selected content it returns
before touching any state and makes no network call; otherwise it posts
the draft and records the success or error outcome, with `sharing`
reset by the `finally` block.  The returned option is the network call
made, `none` when none was observed. -/
def handleShare (s : GenState) (outcome : ShareOutcome) :
    GenState × Option ShareRequest :=
  match s.selectedContent with
  | none => (s, none)
  | some item =>
      let req : ShareRequest :=
        { category := s.category, contentId := item.id,
          caption :=
            if s.caption.trim.isEmpty then none else some s.caption.trim }
      match outcome with
      | .resolved =>
          ({ s with shareResult := some .success, sharing := false },
            some req)
      | .rejected serverMessage =>
          ({ s with
              shareResult :=
                some (.error (jsOrStr serverMessage "Failed to share")),
              sharing := false },
            some req)

/-! ## Supporting lemmas for the luminance claim -/

theorem parseIntHex_pair (a b : Char) (ha : isHexDigitChar a = true)
    (hb : isHexDigitChar b = true) :
    parseIntHex [a, b] = some (16 * hexVal a + hexVal b) := by
  simp [parseIntHex, List.takeWhile, ha, hb]
  ring

theorem mk_cons_isEmpty (c : Char) (cs : List Char) :
    (String.mk (c :: cs)).isEmpty = false := by
  rw [Bool.eq_false_iff]
  intro h
  have h2 : String.mk (c :: cs) = "" := (String.isEmpty_iff _).mp h
  have h3 : (String.mk (c :: cs)).data = ("" : String).data :=
    congrArg String.data h2
  simp at h3

/-- Integer form of the perceived-lightness test versus the spec's
0-to-1000 weighted real formula at threshold 160. -/
theorem lum_iff (r g b : ℕ) :
    (r * 299 + g * 587 + b * 114 > 160000) ↔
      ((160 : ℚ) < r * 0.299 + g * 0.587 + b * 0.114) := by
  rw [show (0.299 : ℚ) = 299 / 1000 by norm_num,
    show (0.587 : ℚ) = 587 / 1000 by norm_num,
    show (0.114 : ℚ) = 114 / 1000 by norm_num]
  constructor
  · intro h
    have h2 : (160000 : ℚ) < r * 299 + g * 587 + b * 114 := by
      exact_mod_cast h
    linarith
  · intro h
    have h2 : (160000 : ℚ) < r * 299 + g * 587 + b * 114 := by linarith
    exact_mod_cast h2

theorem isLightColor_hex (d1 d2 d3 d4 d5 d6 : Char)
    (h1 : isHexDigitChar d1 = true) (h2 : isHexDigitChar d2 = true)
    (h3 : isHexDigitChar d3 = true) (h4 : isHexDigitChar d4 = true)
    (h5 : isHexDigitChar d5 = true) (h6 : isHexDigitChar d6 = true) :
    isLightColor (String.mk ['#', d1, d2, d3, d4, d5, d6]) =
      decide ((16 * hexVal d1 + hexVal d2) * 299 +
        (16 * hexVal d3 + hexVal d4) * 587 +
        (16 * hexVal d5 + hexVal d6) * 114 > 160000) := by
  show lumAbove160 (parseIntHex [d1, d2]) (parseIntHex [d3, d4])
      (parseIntHex [d5, d6]) = _
  rw [parseIntHex_pair d1 d2 h1 h2, parseIntHex_pair d3 d4 h3 h4,
    parseIntHex_pair d5 d6 h5 h6]
  rfl

/-! ## Claim theorems -/

/-- C2: `updateStyle(f, v)` sets field `f` to `v` and leaves every other
field of the style unchanged. -/
theorem updateStyle_frame (s : StoryStyle) (f : StyleField)
    (v : Option String) :
    getStyleField (updateStyle s f v) f = v ∧
    ∀ g : StyleField, g ≠ f →
      getStyleField (updateStyle s f v) g = getStyleField s g := by
  constructor
  · cases f <;> rfl
  · intro g hg
    cases f <;> cases g <;> first | rfl | exact absurd rfl hg

/-- Witness for `updateStyle_frame` at a concrete field and value. -/
theorem updateStyle_frame_witness :
    getStyleField (updateStyle defaultStyle StyleField.font (some "serif"))
        StyleField.font = some "serif" ∧
    getStyleField (updateStyle defaultStyle StyleField.font (some "serif"))
        StyleField.bgColor = getStyleField defaultStyle StyleField.bgColor := by
  have h := updateStyle_frame defaultStyle StyleField.font (some "serif")
  exact ⟨h.1, h.2 StyleField.bgColor (by decide)⟩

/-- C3: with an explicit six-hex-digit background color the derived text
color follows the perceived lightness R×0.299 + G×0.587 + B×0.114 over
0–255 channels against the fixed threshold 160: dark foreground above the
threshold, light foreground otherwise. -/
theorem storyTextColor_luminance (d1 d2 d3 d4 d5 d6 : Char)
    (h1 : isHexDigitChar d1 = true) (h2 : isHexDigitChar d2 = true)
    (h3 : isHexDigitChar d3 = true) (h4 : isHexDigitChar d4 = true)
    (h5 : isHexDigitChar d5 = true) (h6 : isHexDigitChar d6 = true) :
    storyTextColor (some (String.mk ['#', d1, d2, d3, d4, d5, d6])) =
      if (160 : ℚ) <
          ((16 * hexVal d1 + hexVal d2 : ℕ) : ℚ) * 0.299 +
          ((16 * hexVal d3 + hexVal d4 : ℕ) : ℚ) * 0.587 +
          ((16 * hexVal d5 + hexVal d6 : ℕ) : ℚ) * 0.114
      then "#1d1b22" else "#fff" := by
  unfold storyTextColor
  have htr : truthyStr (some (String.mk ['#', d1, d2, d3, d4, d5, d6])) =
      true := by
    simp [truthyStr, mk_cons_isEmpty]
  rw [htr]
  have hget : (some (String.mk ['#', d1, d2, d3, d4, d5, d6])).getD "" =
      String.mk ['#', d1, d2, d3, d4, d5, d6] := rfl
  rw [hget, isLightColor_hex d1 d2 d3 d4 d5 d6 h1 h2 h3 h4 h5 h6]
  simp only [Bool.true_and, decide_eq_true_eq, lum_iff]

/-- Witness for `storyTextColor_luminance`: the spec scenario
`bgColor = "#1a1a2e"` derives the light (white) text color, its luminance
28.28 being below 160. -/
theorem storyTextColor_luminance_witness :
    storyTextColor (some "#1a1a2e") = "#fff" := by
  have h := storyTextColor_luminance '1' 'a' '1' 'a' '2' 'e'
    (by decide) (by decide) (by decide) (by decide) (by decide) (by decide)
  have hs : ("#1a1a2e" : String) = String.mk ['#', '1', 'a', '1', 'a', '2', 'e'] := by
    decide
  rw [hs, h]
  rw [show hexVal '1' = 1 by decide, show hexVal 'a' = 10 by decide,
    show hexVal '2' = 2 by decide, show hexVal 'e' = 14 by decide]
  norm_num

theorem storyCard_background_eq (category : String)
    (content : Option ContentItem) (dc cap : Option String)
    (st : StoryStyle) :
    (storyCard category content dc cap st).background =
      resolveBackground st.bgColor dc category := rfl

/-- C4: background resolution priority of the rendered card — an explicit
style color override wins, else a present content-derived dominant color,
else the per-category default gradient. -/
theorem storyCard_background_priority (category : String)
    (content : Option ContentItem) (dc cap : Option String)
    (st : StoryStyle) :
    (∀ c, st.bgColor = some c → c.isEmpty = false →
      (storyCard category content dc cap st).background =
        some ("linear-gradient(145deg, " ++ c ++ "ff, " ++ c ++ "cc, " ++
          c ++ "88)")) ∧
    (truthyStr st.bgColor = false → ∀ d, dc = some d → d.isEmpty = false →
      (storyCard category content dc cap st).background =
        some ("linear-gradient(145deg, " ++ d ++ "dd, " ++ d ++ "88, " ++
          d ++ "44)")) ∧
    (truthyStr st.bgColor = false → truthyStr dc = false →
      (storyCard category content dc cap st).background =
        categoryGradients category) := by
  refine ⟨?_, ?_, ?_⟩
  · intro c hc hce
    rw [storyCard_background_eq]
    unfold resolveBackground
    rw [hc]
    simp [truthyStr, hce]
  · intro hbg d hd hde
    rw [storyCard_background_eq]
    unfold resolveBackground
    rw [hbg, hd]
    simp [truthyStr, hde]
  · intro hbg hdc
    rw [storyCard_background_eq]
    unfold resolveBackground
    rw [hbg, hdc]
    simp

/-- Witness for `storyCard_background_priority`: all three branches at
concrete inputs. -/
theorem storyCard_background_priority_witness :
    (storyCard "music" none none none
        { defaultStyle with bgColor := some "#1a1a2e" }).background =
      some "linear-gradient(145deg, #1a1a2eff, #1a1a2ecc, #1a1a2e88)" ∧
    (storyCard "music" none (some "#445566") none defaultStyle).background =
      some "linear-gradient(145deg, #445566dd, #44556688, #44556644)" ∧
    (storyCard "music" none none none defaultStyle).background =
      categoryGradients "music" := by
  refine ⟨?_, ?_, ?_⟩
  · have h := (storyCard_background_priority "music" none none none
      { defaultStyle with bgColor := some "#1a1a2e" }).1 "#1a1a2e" rfl
      (by decide)
    exact h.trans (by decide)
  · have h := (storyCard_background_priority "music" none
      (some "#445566") none defaultStyle).2.1 (by decide) "#445566" rfl
      (by decide)
    exact h.trans (by decide)
  · exact (storyCard_background_priority "music" none none none
      defaultStyle).2.2 (by decide) (by decide)

/-- C5: rendering under the `music` category never reads the item's
`director` or `author` fields — overwriting both with arbitrary values
leaves the rendered descriptor structurally unchanged. -/
theorem storyPreview_music_isolation (i : ContentItem)
    (d a : Option String) (st : StoryStyle) (cap : String) :
    storyPreview "music" { i with director := d, author := a } st cap =
      storyPreview "music" i st cap := rfl

/-- C6 counterexample: the caption `" "` is whitespace-only (every one of
its characters is whitespace, so it is empty after trimming), yet the
rendered card attaches it — the render path tests only truthiness
(`caption || undefined`, `{caption && …}`) and never trims. -/
theorem storyPreview_caption_counterexample :
    (storyPreview "music" {} defaultStyle " ").caption = some " " ∧
    (" " : String).data.all Char.isWhitespace = true := by
  exact ⟨rfl, by decide⟩

/-- C6 (amended): the rendered card includes the caption exactly when the
caption string is non-empty; no trimming is applied, so a whitespace-only
caption is attached verbatim. -/
theorem storyPreview_caption (category : String) (item : ContentItem)
    (st : StoryStyle) (cap : String) :
    (storyPreview category item st cap).caption =
      if cap.isEmpty then none else some cap := by
  by_cases h : cap.isEmpty = true
  · simp [storyPreview, storyCard, truthyStr, h]
  · rw [Bool.not_eq_true] at h
    simp [storyPreview, storyCard, truthyStr, h]

/-- C7: invoking `handleShare` with no selected content returns before any
state update and performs no network call. -/
theorem handleShare_no_content (s : GenState)
    (h : s.selectedContent = none) (o : ShareOutcome) :
    handleShare s o = (s, none) := by
  unfold handleShare
  rw [h]

/-- Witness for `handleShare_no_content` at the initial generator state. -/
theorem handleShare_no_content_witness :
    handleShare genInit ShareOutcome.resolved = (genInit, none) :=
  handleShare_no_content genInit rfl ShareOutcome.resolved

/-- C8: resolving the content fetcher fails with a hard
`Unknown category` error for any category outside the closed five-key
set, and returns the category's own fetcher for each of the five. -/
theorem getContentByCategory_closed (category : String) :
    (category ≠ "cinema" → category ≠ "music" → category ≠ "games" →
      category ≠ "books" → category ≠ "travel" →
      getContentByCategory category =
        .error ("Unknown category: " ++ category)) ∧
    getContentByCategory "cinema" = .ok Fetcher.getMovies ∧
    getContentByCategory "music" = .ok Fetcher.getAlbums ∧
    getContentByCategory "games" = .ok Fetcher.getGames ∧
    getContentByCategory "books" = .ok Fetcher.getBooks ∧
    getContentByCategory "travel" = .ok Fetcher.getLocations := by
  refine ⟨?_, rfl, rfl, rfl, rfl, rfl⟩
  intro h1 h2 h3 h4 h5
  simp [getContentByCategory, categoryFetchers, h1, h2, h3, h4, h5]

/-- Witness for `getContentByCategory_closed`: an unknown category throws,
a known one resolves. -/
theorem getContentByCategory_closed_witness :
    getContentByCategory "podcasts" =
      .error "Unknown category: podcasts" ∧
    getContentByCategory "cinema" = .ok Fetcher.getMovies := by
  constructor
  · have h := (getContentByCategory_closed "podcasts").1 (by decide)
      (by decide) (by decide) (by decide) (by decide)
    exact h.trans (congrArg Except.error (by decide))
  · exact (getContentByCategory_closed "cinema").2.1

/-- C9: the card title is the item's `title`, falling back to `name`, and
the literal `"Untitled"` when both are absent or empty. -/
theorem storyCard_title_fallback (category : String) (i : ContentItem)
    (dc cap : Option String) (st : StoryStyle) :
    (truthyStr i.title = false → truthyStr i.name = false →
      (storyCard category (some i) dc cap st).title = "Untitled") ∧
    (∀ t, i.title = some t → t.isEmpty = false →
      (storyCard category (some i) dc cap st).title = t) ∧
    (truthyStr i.title = false → ∀ nm, i.name = some nm →
      nm.isEmpty = false →
      (storyCard category (some i) dc cap st).title = nm) := by
  have heq : (storyCard category (some i) dc cap st).title =
      jsOrStr (jsOr i.title i.name) "Untitled" := rfl
  refine ⟨?_, ?_, ?_⟩
  · intro ht hn
    rw [heq]
    cases hti : i.title with
    | none =>
        cases hni : i.name with
        | none => simp [jsOr, jsOrStr, truthyStr, hti, hni]
        | some nm =>
            rw [hni] at hn
            simp [truthyStr] at hn
            simp [jsOr, jsOrStr, truthyStr, hti, hni, hn]
    | some t =>
        rw [hti] at ht
        simp [truthyStr] at ht
        cases hni : i.name with
        | none => simp [jsOr, jsOrStr, truthyStr, hti, hni, ht]
        | some nm =>
            rw [hni] at hn
            simp [truthyStr] at hn
            simp [jsOr, jsOrStr, truthyStr, hti, hni, ht, hn]
  · intro t ht hte
    rw [heq]
    simp [jsOr, jsOrStr, truthyStr, ht, hte]
  · intro ht nm hnm hne
    rw [heq]
    cases hti : i.title with
    | none => simp [jsOr, jsOrStr, truthyStr, hti, hnm, hne]
    | some t =>
        rw [hti] at ht
        simp [truthyStr] at ht
        simp [jsOr, jsOrStr, truthyStr, hti, hnm, ht, hne]

/-- Witness for `storyCard_title_fallback`: an item with neither title nor
name renders as `"Untitled"`; a titled item renders its title. -/
theorem storyCard_title_fallback_witness :
    (storyCard "music" (some {}) none none defaultStyle).title =
      "Untitled" ∧
    (storyCard "music" (some { title := some "Kid A" }) none none
        defaultStyle).title = "Kid A" := by
  constructor
  · exact (storyCard_title_fallback "music" {} none none defaultStyle).1
      (by decide) (by decide)
  · exact (storyCard_title_fallback "music" { title := some "Kid A" }
      none none defaultStyle).2.1 "Kid A" rfl (by decide)

/-- C10: every category change clears the selected content, the caption
and the share outcome while installing the new category, so no item stays
selected under a previously active category. -/
theorem handleCategoryChange_resets (s : GenState) (key : String) :
    (handleCategoryChange s key).category = key ∧
    (handleCategoryChange s key).selectedContent = none ∧
    (handleCategoryChange s key).caption = "" ∧
    (handleCategoryChange s key).shareResult = none :=
  ⟨rfl, rfl, rfl, rfl⟩

end VibeCheck
